import Mathlib

/-!
Verification of the salarycalt repository: a shallow embedding in Lean 4 of
the two computation modules, the Malaysian progressive tax evaluator
(`src/lib/malaysiaTax.ts`) and the deduction/allocation engine
(`src/components/SalaryCalculator.vue`), with machine-checked statements of
the specification's claims about them.  JavaScript numbers are modelled as
exact rationals (ℚ); values that may be non-numeric in JavaScript (form
fields fed through `Number(x) || 0`, optional option fields) are modelled as
`Option ℚ` with `none` standing for a missing or non-numeric value.
-/

namespace SalaryCalt

/-- Tax bracket record, mirroring `type Bracket` in `malaysiaTax.ts`:
`upTo` is the inclusive upper bound (`null`, i.e. `none`, for the top
bracket), `rate` the marginal rate, `baseTax` the cumulative tax of all
previous brackets, `lowerBound` the exclusive lower bound used by the
bracket search. -/
structure Bracket where
  upTo : Option ℚ
  rate : ℚ
  baseTax : ℚ
  lowerBound : ℚ
deriving DecidableEq, Repr

/-- The fixed `BRACKETS` table of `malaysiaTax.ts` (YA 2024), in source
order. -/
def BRACKETS : List Bracket :=
  [ ⟨some 5000, 0, 0, 0⟩,
    ⟨some 20000, 1/100, 0, 5000⟩,
    ⟨some 35000, 3/100, 150, 20000⟩,
    ⟨some 50000, 6/100, 600, 35000⟩,
    ⟨some 70000, 11/100, 1500, 50000⟩,
    ⟨some 100000, 19/100, 3700, 70000⟩,
    ⟨some 400000, 25/100, 9400, 100000⟩,
    ⟨some 600000, 26/100, 84400, 400000⟩,
    ⟨some 2000000, 28/100, 136400, 600000⟩,
    ⟨none, 30/100, 528400, 2000000⟩ ]

/-- The predicate passed to `BRACKETS.find` in `computeAnnualTax`:
`b.upTo == null ? ci > b.lowerBound : ci > b.lowerBound && ci <= b.upTo`. -/
def bracketMatches (ci : ℚ) (b : Bracket) : Bool :=
  match b.upTo with
  | none => decide (b.lowerBound < ci)
  | some u => decide (b.lowerBound < ci) && decide (ci ≤ u)

/-- Embedding of `computeAnnualTax(chargeableIncome, opts)`.  The two option
fields are modelled after their decoding in the source:
`applySelfRebate = (opts?.applySelfRebate !== false)` (default `true`) and
`spouseRebate = (opts?.spouseRebate === true)` (default `false`), so calling
with no options corresponds to `applySelfRebate = true, spouseRebate =
false`. -/
def computeAnnualTax (chargeableIncome : ℚ)
    (applySelfRebate spouseRebate : Bool) : ℚ :=
  let ci := max 0 chargeableIncome
  if ci ≤ 5000 then 0
  else
    match BRACKETS.find? (bracketMatches ci) with
    | none => 0
    | some bracket =>
      let taxableInBracket :=
        (match bracket.upTo with
         | none => ci
         | some u => min ci u) - bracket.lowerBound
      let tax := bracket.baseTax + taxableInBracket * bracket.rate
      if ci ≤ 35000 && (applySelfRebate || spouseRebate) then
        max 0 (tax -
          ((if applySelfRebate then 400 else 0) +
           (if spouseRebate then 400 else 0)))
      else tax

/-- Embedding of `estimateMonthlyTaxFromAnnualChargeable`. -/
def estimateMonthlyTaxFromAnnualChargeable (chargeableIncome : ℚ)
    (applySelfRebate spouseRebate : Bool) : ℚ :=
  computeAnnualTax chargeableIncome applySelfRebate spouseRebate / 12

/-- Embedding of `buildAnnualChargeableIncome(monthlyGross, annualReliefs,
opts)`; the three optional monthly contribution fields are `none` when the
corresponding option is absent (`null`/`undefined`). -/
def buildAnnualChargeableIncome (monthlyGross annualReliefs : ℚ)
    (epfMonthly socsoMonthly eisMonthly : Option ℚ) : ℚ :=
  let annualGross := max 0 monthlyGross * 12
  let totalReliefs := max 0 annualReliefs
  let totalReliefs :=
    match epfMonthly with
    | some e => totalReliefs + min (max 0 e * 12) 7000
    | none => totalReliefs
  let totalReliefs :=
    if socsoMonthly.isSome ∨ eisMonthly.isSome then
      totalReliefs +
        min ((max 0 (socsoMonthly.getD 0) + max 0 (eisMonthly.getD 0)) * 12) 350
    else totalReliefs
  max 0 (annualGross - totalReliefs)


def taxJ (x : ℚ) : ℚ := 528400 + (x - 2000000) * (30/100)
def taxI (x : ℚ) : ℚ := if x ≤ 2000000 then 136400 + (x - 600000) * (28/100) else taxJ x
def taxH (x : ℚ) : ℚ := if x ≤ 600000 then 84400 + (x - 400000) * (26/100) else taxI x
def taxG (x : ℚ) : ℚ := if x ≤ 400000 then 9400 + (x - 100000) * (25/100) else taxH x
def taxF (x : ℚ) : ℚ := if x ≤ 100000 then 3700 + (x - 70000) * (19/100) else taxG x
def taxE (x : ℚ) : ℚ := if x ≤ 70000 then 1500 + (x - 50000) * (11/100) else taxF x
def taxD (x : ℚ) : ℚ := if x ≤ 50000 then 600 + (x - 35000) * (6/100) else taxE x
def taxC (x : ℚ) : ℚ := if x ≤ 35000 then 150 + (x - 20000) * (3/100) else taxD x
def taxB (x : ℚ) : ℚ := if x ≤ 20000 then 0 + (x - 5000) * (1/100) else taxC x
def preTax (x : ℚ) : ℚ := if x ≤ 5000 then 0 else taxB x

def rebateAmt (a s : Bool) : ℚ :=
  (if a then 400 else 0) + (if s then 400 else 0)

section FindLemmas
variable (ci : ℚ)

lemma find?_eq_B (h1 : 5000 < ci) (h2 : ci ≤ 20000) :
    BRACKETS.find? (bracketMatches ci) = some ⟨some 20000, 1/100, 0, 5000⟩ := by
  have h0 : ¬ (ci ≤ 5000) := not_le.mpr h1
  simp [BRACKETS, bracketMatches, h0, h1, h2]

lemma find?_eq_C (h1 : 20000 < ci) (h2 : ci ≤ 35000) :
    BRACKETS.find? (bracketMatches ci) = some ⟨some 35000, 3/100, 150, 20000⟩ := by
  have h0 : ¬ (ci ≤ 5000) := by linarith
  have hb : ¬ (ci ≤ 20000) := not_le.mpr h1
  simp [BRACKETS, bracketMatches, h0, hb, h1, h2]

lemma find?_eq_D (h1 : 35000 < ci) (h2 : ci ≤ 50000) :
    BRACKETS.find? (bracketMatches ci) = some ⟨some 50000, 6/100, 600, 35000⟩ := by
  have h0 : ¬ (ci ≤ 5000) := by linarith
  have hb : ¬ (ci ≤ 20000) := by linarith
  have hc : ¬ (ci ≤ 35000) := not_le.mpr h1
  simp [BRACKETS, bracketMatches, h0, hb, hc, h1, h2]

lemma find?_eq_E (h1 : 50000 < ci) (h2 : ci ≤ 70000) :
    BRACKETS.find? (bracketMatches ci) = some ⟨some 70000, 11/100, 1500, 50000⟩ := by
  have h0 : ¬ (ci ≤ 5000) := by linarith
  have hb : ¬ (ci ≤ 20000) := by linarith
  have hc : ¬ (ci ≤ 35000) := by linarith
  have hd : ¬ (ci ≤ 50000) := not_le.mpr h1
  simp [BRACKETS, bracketMatches, h0, hb, hc, hd, h1, h2]

lemma find?_eq_F (h1 : 70000 < ci) (h2 : ci ≤ 100000) :
    BRACKETS.find? (bracketMatches ci) = some ⟨some 100000, 19/100, 3700, 70000⟩ := by
  have h0 : ¬ (ci ≤ 5000) := by linarith
  have hb : ¬ (ci ≤ 20000) := by linarith
  have hc : ¬ (ci ≤ 35000) := by linarith
  have hd : ¬ (ci ≤ 50000) := by linarith
  have he : ¬ (ci ≤ 70000) := not_le.mpr h1
  simp [BRACKETS, bracketMatches, h0, hb, hc, hd, he, h1, h2]

lemma find?_eq_G (h1 : 100000 < ci) (h2 : ci ≤ 400000) :
    BRACKETS.find? (bracketMatches ci) = some ⟨some 400000, 25/100, 9400, 100000⟩ := by
  have h0 : ¬ (ci ≤ 5000) := by linarith
  have hb : ¬ (ci ≤ 20000) := by linarith
  have hc : ¬ (ci ≤ 35000) := by linarith
  have hd : ¬ (ci ≤ 50000) := by linarith
  have he : ¬ (ci ≤ 70000) := by linarith
  have hf : ¬ (ci ≤ 100000) := not_le.mpr h1
  simp [BRACKETS, bracketMatches, h0, hb, hc, hd, he, hf, h1, h2]

lemma find?_eq_H (h1 : 400000 < ci) (h2 : ci ≤ 600000) :
    BRACKETS.find? (bracketMatches ci) = some ⟨some 600000, 26/100, 84400, 400000⟩ := by
  have h0 : ¬ (ci ≤ 5000) := by linarith
  have hb : ¬ (ci ≤ 20000) := by linarith
  have hc : ¬ (ci ≤ 35000) := by linarith
  have hd : ¬ (ci ≤ 50000) := by linarith
  have he : ¬ (ci ≤ 70000) := by linarith
  have hf : ¬ (ci ≤ 100000) := by linarith
  have hg : ¬ (ci ≤ 400000) := not_le.mpr h1
  simp [BRACKETS, bracketMatches, h0, hb, hc, hd, he, hf, hg, h1, h2]

lemma find?_eq_I (h1 : 600000 < ci) (h2 : ci ≤ 2000000) :
    BRACKETS.find? (bracketMatches ci) = some ⟨some 2000000, 28/100, 136400, 600000⟩ := by
  have h0 : ¬ (ci ≤ 5000) := by linarith
  have hb : ¬ (ci ≤ 20000) := by linarith
  have hc : ¬ (ci ≤ 35000) := by linarith
  have hd : ¬ (ci ≤ 50000) := by linarith
  have he : ¬ (ci ≤ 70000) := by linarith
  have hf : ¬ (ci ≤ 100000) := by linarith
  have hg : ¬ (ci ≤ 400000) := by linarith
  have hh : ¬ (ci ≤ 600000) := not_le.mpr h1
  simp [BRACKETS, bracketMatches, h0, hb, hc, hd, he, hf, hg, hh, h1, h2]

lemma find?_eq_J (h1 : 2000000 < ci) :
    BRACKETS.find? (bracketMatches ci) = some ⟨none, 30/100, 528400, 2000000⟩ := by
  have h0 : ¬ (ci ≤ 5000) := by linarith
  have hb : ¬ (ci ≤ 20000) := by linarith
  have hc : ¬ (ci ≤ 35000) := by linarith
  have hd : ¬ (ci ≤ 50000) := by linarith
  have he : ¬ (ci ≤ 70000) := by linarith
  have hf : ¬ (ci ≤ 100000) := by linarith
  have hg : ¬ (ci ≤ 400000) := by linarith
  have hh : ¬ (ci ≤ 600000) := by linarith
  have hi : ¬ (ci ≤ 2000000) := not_le.mpr h1
  simp [BRACKETS, bracketMatches, h0, hb, hc, hd, he, hf, hg, hh, hi, h1]

end FindLemmas

lemma rebateAmt_nonneg (a s : Bool) : 0 ≤ rebateAmt a s := by
  unfold rebateAmt
  split <;> split <;> norm_num

lemma computeAnnualTax_eq_closed (x : ℚ) (a s : Bool) :
    computeAnnualTax x a s =
      (if max 0 x ≤ 35000 ∧ (a || s) = true then
        max 0 (preTax (max 0 x) - rebateAmt a s)
      else preTax (max 0 x)) := by
  set ci := max 0 x with hci
  have hr := rebateAmt_nonneg a s
  rcases le_or_lt ci 5000 with h1 | h1
  · have hp : preTax ci = 0 := by simp [preTax, h1]
    have h35 : ci ≤ 35000 := by linarith
    simp only [computeAnnualTax, ← hci, if_pos h1, hp, h35, true_and]
    rcases hos : (a || s) with _ | _
    · simp
    · simpa using hr
  · rcases le_or_lt ci 20000 with h2 | h2
    · have hp : preTax ci = 0 + (ci - 5000) * (1/100) := by
        simp [preTax, taxB, not_le.mpr h1, h2]
      have h35 : ci ≤ 35000 := by linarith
      simp [computeAnnualTax, ← hci, not_le.mpr h1, find?_eq_B ci h1 h2, hp,
        min_eq_left h2, h35, rebateAmt]
    · rcases le_or_lt ci 35000 with h3 | h3
      · have hp : preTax ci = 150 + (ci - 20000) * (3/100) := by
          simp [preTax, taxB, taxC, not_le.mpr h1, not_le.mpr h2, h3]
        simp [computeAnnualTax, ← hci, not_le.mpr h1, find?_eq_C ci h2 h3, hp,
          min_eq_left h3, h3, rebateAmt]
      · rcases le_or_lt ci 50000 with h4 | h4
        · have hp : preTax ci = 600 + (ci - 35000) * (6/100) := by
            simp [preTax, taxB, taxC, taxD, not_le.mpr h1, not_le.mpr h2,
              not_le.mpr h3, h4]
          simp [computeAnnualTax, ← hci, not_le.mpr h1, find?_eq_D ci h3 h4, hp,
            min_eq_left h4, not_le.mpr h3]
        · rcases le_or_lt ci 70000 with h5 | h5
          · have hp : preTax ci = 1500 + (ci - 50000) * (11/100) := by
              simp [preTax, taxB, taxC, taxD, taxE, not_le.mpr h1, not_le.mpr h2,
                not_le.mpr h3, not_le.mpr h4, h5]
            simp [computeAnnualTax, ← hci, not_le.mpr h1, find?_eq_E ci h4 h5, hp,
              min_eq_left h5, not_le.mpr h3]
          · rcases le_or_lt ci 100000 with h6 | h6
            · have hp : preTax ci = 3700 + (ci - 70000) * (19/100) := by
                simp [preTax, taxB, taxC, taxD, taxE, taxF, not_le.mpr h1,
                  not_le.mpr h2, not_le.mpr h3, not_le.mpr h4, not_le.mpr h5, h6]
              simp [computeAnnualTax, ← hci, not_le.mpr h1, find?_eq_F ci h5 h6, hp,
                min_eq_left h6, not_le.mpr h3]
            · rcases le_or_lt ci 400000 with h7 | h7
              · have hp : preTax ci = 9400 + (ci - 100000) * (25/100) := by
                  simp [preTax, taxB, taxC, taxD, taxE, taxF, taxG, not_le.mpr h1,
                    not_le.mpr h2, not_le.mpr h3, not_le.mpr h4, not_le.mpr h5,
                    not_le.mpr h6, h7]
                simp [computeAnnualTax, ← hci, not_le.mpr h1, find?_eq_G ci h6 h7, hp,
                  min_eq_left h7, not_le.mpr h3]
              · rcases le_or_lt ci 600000 with h8 | h8
                · have hp : preTax ci = 84400 + (ci - 400000) * (26/100) := by
                    simp [preTax, taxB, taxC, taxD, taxE, taxF, taxG, taxH,
                      not_le.mpr h1, not_le.mpr h2, not_le.mpr h3, not_le.mpr h4,
                      not_le.mpr h5, not_le.mpr h6, not_le.mpr h7, h8]
                  simp [computeAnnualTax, ← hci, not_le.mpr h1, find?_eq_H ci h7 h8,
                    hp, min_eq_left h8, not_le.mpr h3]
                · rcases le_or_lt ci 2000000 with h9 | h9
                  · have hp : preTax ci = 136400 + (ci - 600000) * (28/100) := by
                      simp [preTax, taxB, taxC, taxD, taxE, taxF, taxG, taxH, taxI,
                        not_le.mpr h1, not_le.mpr h2, not_le.mpr h3, not_le.mpr h4,
                        not_le.mpr h5, not_le.mpr h6, not_le.mpr h7, not_le.mpr h8,
                        h9]
                    simp [computeAnnualTax, ← hci, not_le.mpr h1, find?_eq_I ci h8 h9,
                      hp, min_eq_left h9, not_le.mpr h3]
                  · have hp : preTax ci = 528400 + (ci - 2000000) * (30/100) := by
                      simp [preTax, taxB, taxC, taxD, taxE, taxF, taxG, taxH, taxI,
                        taxJ, not_le.mpr h1, not_le.mpr h2, not_le.mpr h3,
                        not_le.mpr h4, not_le.mpr h5, not_le.mpr h6, not_le.mpr h7,
                        not_le.mpr h8, not_le.mpr h9]
                    simp [computeAnnualTax, ← hci, not_le.mpr h1, find?_eq_J ci h9,
                      hp, not_le.mpr h3]

lemma monotone_ite_le (c : ℚ) (f g : ℚ → ℚ) (hf : Monotone f) (hg : Monotone g)
    (hfg : f c ≤ g c) : Monotone fun x => if x ≤ c then f x else g x := by
  intro x y hxy
  dsimp only
  by_cases hx : x ≤ c <;> by_cases hy : y ≤ c
  · simpa [hx, hy] using hf hxy
  · simp only [if_pos hx, if_neg hy]
    exact (hf hx).trans (hfg.trans (hg (not_le.mp hy).le))
  · exact absurd (hxy.trans hy) hx
  · simpa [hx, hy] using hg hxy

lemma monotone_affine (lb base rate : ℚ) (hr : 0 ≤ rate) :
    Monotone fun x => base + (x - lb) * rate := by
  intro x y hxy
  have := mul_le_mul_of_nonneg_right (sub_le_sub_right hxy lb) hr
  dsimp only
  linarith

lemma taxJ_mono : Monotone taxJ :=
  monotone_affine 2000000 528400 (30/100) (by norm_num)

lemma taxI_mono : Monotone taxI := by
  unfold taxI
  exact monotone_ite_le 2000000 _ _
    (monotone_affine 600000 136400 (28/100) (by norm_num)) taxJ_mono
    (by norm_num [taxJ])

lemma taxH_mono : Monotone taxH := by
  unfold taxH
  exact monotone_ite_le 600000 _ _
    (monotone_affine 400000 84400 (26/100) (by norm_num)) taxI_mono
    (by norm_num [taxI])

lemma taxG_mono : Monotone taxG := by
  unfold taxG
  exact monotone_ite_le 400000 _ _
    (monotone_affine 100000 9400 (25/100) (by norm_num)) taxH_mono
    (by norm_num [taxH])

lemma taxF_mono : Monotone taxF := by
  unfold taxF
  exact monotone_ite_le 100000 _ _
    (monotone_affine 70000 3700 (19/100) (by norm_num)) taxG_mono
    (by norm_num [taxG])

lemma taxE_mono : Monotone taxE := by
  unfold taxE
  exact monotone_ite_le 70000 _ _
    (monotone_affine 50000 1500 (11/100) (by norm_num)) taxF_mono
    (by norm_num [taxF])

lemma taxD_mono : Monotone taxD := by
  unfold taxD
  exact monotone_ite_le 50000 _ _
    (monotone_affine 35000 600 (6/100) (by norm_num)) taxE_mono
    (by norm_num [taxE])

lemma taxC_mono : Monotone taxC := by
  unfold taxC
  exact monotone_ite_le 35000 _ _
    (monotone_affine 20000 150 (3/100) (by norm_num)) taxD_mono
    (by norm_num [taxD])

lemma taxB_mono : Monotone taxB := by
  unfold taxB
  exact monotone_ite_le 20000 _ _
    (monotone_affine 5000 0 (1/100) (by norm_num)) taxC_mono
    (by norm_num [taxC])

lemma preTax_mono : Monotone preTax := by
  unfold preTax
  exact monotone_ite_le 5000 _ _ monotone_const taxB_mono
    (by norm_num [taxB])

lemma preTax_nonneg (x : ℚ) (hx : 0 ≤ x) : 0 ≤ preTax x := by
  have h0 : preTax 0 = 0 := by norm_num [preTax]
  calc (0 : ℚ) = preTax 0 := h0.symm
  _ ≤ preTax x := preTax_mono hx

theorem tax_monotone (a s : Bool) (x y : ℚ) (hxy : x ≤ y) :
    computeAnnualTax x a s ≤ computeAnnualTax y a s := by
  rw [computeAnnualTax_eq_closed, computeAnnualTax_eq_closed]
  have hc : max 0 x ≤ max 0 y := max_le_max le_rfl hxy
  have h01 : (0 : ℚ) ≤ max 0 x := le_max_left 0 x
  have hr := rebateAmt_nonneg a s
  by_cases hos : (a || s) = true
  · by_cases h2 : max 0 y ≤ 35000
    · have h1 : max 0 x ≤ 35000 := hc.trans h2
      rw [if_pos ⟨h1, hos⟩, if_pos ⟨h2, hos⟩]
      exact max_le_max le_rfl (sub_le_sub_right (preTax_mono hc) _)
    · by_cases h1 : max 0 x ≤ 35000
      · rw [if_pos ⟨h1, hos⟩, if_neg (fun h => h2 h.1)]
        have hle : preTax (max 0 x) - rebateAmt a s ≤ preTax (max 0 x) := by linarith
        exact max_le ((preTax_nonneg _ h01).trans (preTax_mono hc))
          (hle.trans (preTax_mono hc))
      · rw [if_neg (fun h => h1 h.1), if_neg (fun h => h2 h.1)]
        exact preTax_mono hc
  · rw [if_neg (fun h => hos h.2), if_neg (fun h => hos h.2)]
    exact preTax_mono hc


/-- Model of the JavaScript coercion `Number(v) || 0`: a missing or
non-numeric value (`none`) contributes 0, a numeric value contributes
itself. -/
def numOr0 : Option ℚ → ℚ
  | none => 0
  | some x => x

/-- The `Formula` record of `SalaryCalculator.vue` (percent fields). -/
structure Formula where
  name : String
  needs : ℚ
  wants : ℚ
  savings : ℚ
deriving DecidableEq, Repr

/-- The `DEFAULT_FORMULAS` preset list, in source order. -/
def DEFAULT_FORMULAS : List Formula :=
  [ ⟨"50 / 30 / 20", 50, 30, 20⟩,
    ⟨"70 / 20 / 10", 70, 20, 10⟩,
    ⟨"60 / 20 / 20", 60, 20, 20⟩ ]

/-- Insertion step of the sort used below. -/
def insertByNeeds (f : Formula) : List Formula → List Formula
  | [] => [f]
  | g :: gs => if f.needs ≤ g.needs then f :: g :: gs else g :: insertByNeeds f gs

/-- Model of `DEFAULT_FORMULAS.slice().sort((a, b) => a.needs - b.needs)`:
a comparison sort by ascending `needs` (insertion sort; the three preset
keys are distinct, so any comparison sort yields the same list). -/
def sortByNeeds : List Formula → List Formula
  | [] => []
  | f :: fs => insertByNeeds f (sortByNeeds fs)

/-- The template-string label of a synthesized custom formula. -/
def customName (needs wants savings : ℚ) : String :=
  toString needs ++ " / " ++ toString wants ++ " / " ++ toString savings ++
    " (custom)"

/-- Embedding of the `chosenFormula` computed property: find the first
sorted preset whose `needs` covers `necessityPct`, else synthesize a custom
formula. -/
def chosenFormula (necessityPct : ℚ) : Formula :=
  match (sortByNeeds DEFAULT_FORMULAS).find?
      (fun f => decide (f.needs ≥ necessityPct)) with
  | some fit => fit
  | none =>
    let needs : ℚ := min 100 (⌈necessityPct⌉ : ℚ)
    let savings : ℚ := if needs > 70 then 10 else 20
    let wants : ℚ := 100 - needs - savings
    if wants < 0 then
      let savings2 : ℚ := max 0 (100 - needs)
      let wants2 : ℚ := 100 - needs - savings2
      ⟨customName needs wants2 savings2, needs, wants2, savings2⟩
    else
      ⟨customName needs wants savings, needs, wants, savings⟩

lemma sortByNeeds_DEFAULT :
    sortByNeeds DEFAULT_FORMULAS =
      [⟨"50 / 30 / 20", 50, 30, 20⟩, ⟨"60 / 20 / 20", 60, 20, 20⟩,
       ⟨"70 / 20 / 10", 70, 20, 10⟩] := by
  norm_num [sortByNeeds, insertByNeeds, DEFAULT_FORMULAS]

lemma chosenFormula_le50 (pct : ℚ) (h : pct ≤ 50) :
    chosenFormula pct = ⟨"50 / 30 / 20", 50, 30, 20⟩ := by
  simp [chosenFormula, sortByNeeds_DEFAULT, h]

lemma chosenFormula_le60 (pct : ℚ) (h1 : 50 < pct) (h2 : pct ≤ 60) :
    chosenFormula pct = ⟨"60 / 20 / 20", 60, 20, 20⟩ := by
  simp [chosenFormula, sortByNeeds_DEFAULT, not_le.mpr h1, h2]

lemma chosenFormula_le70 (pct : ℚ) (h1 : 60 < pct) (h2 : pct ≤ 70) :
    chosenFormula pct = ⟨"70 / 20 / 10", 70, 20, 10⟩ := by
  have h0 : ¬ (pct ≤ 50) := by linarith
  simp [chosenFormula, sortByNeeds_DEFAULT, h0, not_le.mpr h1, h2]

lemma chosenFormula_custom_fields (pct : ℚ) (h : 70 < pct) :
    (chosenFormula pct).needs = min 100 (⌈pct⌉ : ℚ) ∧
    (chosenFormula pct).savings =
      (if 100 - min 100 (⌈pct⌉ : ℚ) - 10 < 0 then 100 - min 100 (⌈pct⌉ : ℚ)
       else 10) ∧
    (chosenFormula pct).wants =
      100 - (chosenFormula pct).needs - (chosenFormula pct).savings := by
  have h5 : ¬ ((50 : ℚ) ≥ pct) := by simp; linarith
  have h6 : ¬ ((60 : ℚ) ≥ pct) := by simp; linarith
  have h7 : ¬ ((70 : ℚ) ≥ pct) := by simp; linarith
  have hfind : (sortByNeeds DEFAULT_FORMULAS).find?
      (fun f => decide (f.needs ≥ pct)) = none := by
    simp [sortByNeeds_DEFAULT, h5, h6, h7]
  have hceil : (70 : ℚ) < (⌈pct⌉ : ℚ) := lt_of_lt_of_le h (Int.le_ceil pct)
  have hn70 : (70 : ℚ) < min 100 (⌈pct⌉ : ℚ) := lt_min (by norm_num) hceil
  have hn100 : min 100 (⌈pct⌉ : ℚ) ≤ 100 := min_le_left _ _
  unfold chosenFormula
  rw [hfind]
  simp only [if_pos hn70]
  by_cases hw : 100 - min 100 (⌈pct⌉ : ℚ) - 10 < 0
  · rw [if_pos hw, if_pos hw]
    have hmax : max 0 (100 - min 100 (⌈pct⌉ : ℚ)) = 100 - min 100 (⌈pct⌉ : ℚ) :=
      max_eq_right (by linarith)
    refine ⟨rfl, ?_, ?_⟩ <;> simp [hmax]
  · rw [if_neg hw, if_neg hw]
    exact ⟨rfl, rfl, rfl⟩

lemma chosenFormula_valid (pct : ℚ) :
    0 ≤ (chosenFormula pct).needs ∧ (chosenFormula pct).needs ≤ 100 ∧
    0 ≤ (chosenFormula pct).wants ∧ (chosenFormula pct).wants ≤ 100 ∧
    0 ≤ (chosenFormula pct).savings ∧ (chosenFormula pct).savings ≤ 100 ∧
    (chosenFormula pct).needs + (chosenFormula pct).wants +
      (chosenFormula pct).savings = 100 := by
  rcases le_or_lt pct 50 with h | h
  · rw [chosenFormula_le50 pct h]; norm_num
  rcases le_or_lt pct 60 with h2 | h2
  · rw [chosenFormula_le60 pct h h2]; norm_num
  rcases le_or_lt pct 70 with h3 | h3
  · rw [chosenFormula_le70 pct h2 h3]; norm_num
  obtain ⟨hn, hs, hwf⟩ := chosenFormula_custom_fields pct h3
  have hceil : (70 : ℚ) < (⌈pct⌉ : ℚ) := lt_of_lt_of_le h3 (Int.le_ceil pct)
  have hn70 : (70 : ℚ) < min 100 (⌈pct⌉ : ℚ) := lt_min (by norm_num) hceil
  have hn100 : min 100 (⌈pct⌉ : ℚ) ≤ 100 := min_le_left _ _
  by_cases hw : 100 - min 100 (⌈pct⌉ : ℚ) - 10 < 0
  · rw [if_pos hw] at hs
    refine ⟨?_, ?_, ?_, ?_, ?_, ?_, ?_⟩
    · rw [hn]; linarith
    · exact hn.le.trans hn100
    · rw [hwf, hs, hn]; linarith
    · rw [hwf, hs, hn]; linarith
    · rw [hs]; linarith
    · rw [hs]; linarith
    · rw [hwf]; ring
  · rw [if_neg hw] at hs
    refine ⟨?_, ?_, ?_, ?_, ?_, ?_, ?_⟩
    · rw [hn]; linarith
    · exact hn.le.trans hn100
    · rw [hwf, hs, hn]; linarith
    · rw [hwf, hs, hn]; linarith
    · rw [hs]; norm_num
    · rw [hs]; norm_num
    · rw [hwf]; ring


/-- The reactive `form` object of `SalaryCalculator.vue` (`getDefaultForm`
fields).  `salary` and the five necessity fields pass through
`Number(x) || 0` in the source and so are `Option ℚ`; the rate and ceiling
fields are used directly as numbers. -/
structure SalaryForm where
  salary : Option ℚ
  epfRate : ℚ
  socsoRate : ℚ
  socsoCeiling : ℚ
  eisRate : ℚ
  eisCeiling : ℚ
  house : Option ℚ
  car : Option ℚ
  food : Option ℚ
  utilities : Option ℚ
  otherNecessities : Option ℚ

/-- The `gross` computed property: `Math.max(0, Number(form.salary) || 0)`. -/
def gross (form : SalaryForm) : ℚ := max 0 (numOr0 form.salary)

/-- The `epf` computed property: `gross * (form.epfRate / 100)`. -/
def epf (form : SalaryForm) : ℚ := gross form * (form.epfRate / 100)

/-- The `socso` computed property:
`Math.min(gross, form.socsoCeiling) * (form.socsoRate / 100)`. -/
def socso (form : SalaryForm) : ℚ :=
  min (gross form) form.socsoCeiling * (form.socsoRate / 100)

/-- The `eis` computed property, identical to SOCSO with the EIS
rate/ceiling. -/
def eis (form : SalaryForm) : ℚ :=
  min (gross form) form.eisCeiling * (form.eisRate / 100)

/-- The `totalDeductions` computed property. -/
def totalDeductions (form : SalaryForm) : ℚ := epf form + socso form + eis form

/-- The `net` computed property: `Math.max(0, gross - totalDeductions)`. -/
def net (form : SalaryForm) : ℚ := max 0 (gross form - totalDeductions form)

/-- The `necessities` computed property: the five necessity fields reduced
by `(a, b) => a + (Number(b) || 0)` starting from 0. -/
def necessities (form : SalaryForm) : ℚ :=
  [form.house, form.car, form.food, form.utilities,
    form.otherNecessities].foldl (fun a b => a + numOr0 b) 0

/-- The `necessityPct` computed property:
`net > 0 ? necessities / net * 100 : 0`. -/
def necessityPct (form : SalaryForm) : ℚ :=
  if 0 < net form then necessities form / net form * 100 else 0

/-- Result record of the spec contract `computeAllocation`. -/
structure AllocationResult where
  gross : ℚ
  epfAmount : ℚ
  socsoAmount : ℚ
  eisAmount : ℚ
  net : ℚ
  necessitiesTotal : ℚ
  necessityPct : ℚ
  formula : Formula
  needsAmount : ℚ
  wantsAmount : ℚ
  savingsAmount : ℚ

/-- The whole computed chain of `SalaryCalculator.vue` as the single pure
function `computeAllocation` of the spec; the three amounts mirror the
`allocations` computed property (`(f.needs / 100) * net` and so on). -/
def computeAllocation (form : SalaryForm) : AllocationResult :=
  { gross := gross form
    epfAmount := epf form
    socsoAmount := socso form
    eisAmount := eis form
    net := net form
    necessitiesTotal := necessities form
    necessityPct := necessityPct form
    formula := chosenFormula (necessityPct form)
    needsAmount := (chosenFormula (necessityPct form)).needs / 100 * net form
    wantsAmount := (chosenFormula (necessityPct form)).wants / 100 * net form
    savingsAmount := (chosenFormula (necessityPct form)).savings / 100 * net form }



/-- Transcription of the spec sentence behind claim C1 (each necessity
field floored at 0 individually), for comparison with the code's
`necessities` reduction, which does not floor. -/
def necessitiesClaimed (form : SalaryForm) : ℚ :=
  max 0 (numOr0 form.house) + max 0 (numOr0 form.car) +
    max 0 (numOr0 form.food) + max 0 (numOr0 form.utilities) +
    max 0 (numOr0 form.otherNecessities)

/-- Concrete input refuting claim C1: a numeric negative necessity entry. -/
def cexForm : SalaryForm :=
  { salary := some 1000, epfRate := 0, socsoRate := 0, socsoCeiling := 0,
    eisRate := 0, eisCeiling := 0, house := some (-100), car := some 0,
    food := some 0, utilities := some 0, otherNecessities := some 0 }

/-- C1 counterexample: with house = -100 (all other spend 0), the code's
`necessitiesTotal` is -100, while the claimed per-field flooring would give
0, so the claim as stated is false. -/
theorem necessitiesTotal_not_floored_cex :
    (computeAllocation cexForm).necessitiesTotal = -100 ∧
    necessitiesClaimed cexForm = 0 ∧
    (computeAllocation cexForm).necessitiesTotal ≠ necessitiesClaimed cexForm := by
  refine ⟨?_, ?_, ?_⟩ <;>
    norm_num [computeAllocation, necessities, necessitiesClaimed, numOr0,
      cexForm, List.foldl, max_def]

/-- C1 amended: in `computeAllocation`, `necessitiesTotal` is the plain sum
of the five necessity fields, each coerced to 0 only when non-numeric;
negative numeric entries contribute their (negative) value, with no
individual flooring. -/
theorem necessitiesTotal_plain_sum (form : SalaryForm) :
    (computeAllocation form).necessitiesTotal =
      numOr0 form.house + numOr0 form.car + numOr0 form.food +
        numOr0 form.utilities + numOr0 form.otherNecessities := by
  simp only [computeAllocation, necessities, List.foldl]
  ring

/-- C2 counterexample: with default options (self rebate on), the computed
tax for chargeable income 5000.01 is 0, not a strictly positive value equal
to (5000.01 - 5000) * 0.01, because the RM400 self rebate floors it. -/
theorem tax_just_above_threshold_cex :
    computeAnnualTax (500001/100) true false = 0 ∧
    ¬ (0 < computeAnnualTax (500001/100) true false ∧
       computeAnnualTax (500001/100) true false =
         (500001/100 - 5000) * (1/100)) := by
  have h : computeAnnualTax (500001/100) true false = 0 := by
    norm_num [computeAnnualTax, BRACKETS, bracketMatches, max_def, min_def]
  refine ⟨h, fun hc => ?_⟩
  rw [h] at hc
  exact absurd hc.1 (by norm_num)

/-- C2 amended: `computeAnnualTax 5000` is 0 with default options, and
`computeAnnualTax 5000.01` is also 0 with default options (the self rebate
absorbs the 0.0001 bracket tax); only with both rebates disabled does it
return (5000.01 - 5000) * 0.01 > 0. -/
theorem tax_at_threshold_amended :
    computeAnnualTax 5000 true false = 0 ∧
    computeAnnualTax (500001/100) true false = 0 ∧
    computeAnnualTax (500001/100) false false =
      (500001/100 - 5000) * (1/100) ∧
    0 < computeAnnualTax (500001/100) false false := by
  refine ⟨?_, ?_, ?_, ?_⟩ <;>
    norm_num [computeAnnualTax, BRACKETS, bracketMatches, max_def, min_def]

/-- C3: for every input form, the formula chosen by `computeAllocation`
(preset or synthesized custom) has its three percentages each in [0, 100]
and summing exactly to 100. -/
theorem formula_percentages_valid (form : SalaryForm) :
    0 ≤ (computeAllocation form).formula.needs ∧
    (computeAllocation form).formula.needs ≤ 100 ∧
    0 ≤ (computeAllocation form).formula.wants ∧
    (computeAllocation form).formula.wants ≤ 100 ∧
    0 ≤ (computeAllocation form).formula.savings ∧
    (computeAllocation form).formula.savings ≤ 100 ∧
    (computeAllocation form).formula.needs +
      (computeAllocation form).formula.wants +
      (computeAllocation form).formula.savings = 100 :=
  chosenFormula_valid (necessityPct form)

/-- C4: for each fixed rebate option combination, `computeAnnualTax` is
non-decreasing in the chargeable income, across the rebate cutoff at 35000
and every bracket boundary. -/
theorem computeAnnualTax_monotone (a s : Bool) (x y : ℚ) (hxy : x ≤ y) :
    computeAnnualTax x a s ≤ computeAnnualTax y a s :=
  tax_monotone a s x y hxy

/-- C4 witness: monotonicity applied at the concrete pair 30000 ≤ 40000
(which straddles the 35000 rebate cutoff) with default options. -/
theorem computeAnnualTax_monotone_witness :
    (30000 : ℚ) ≤ 40000 ∧
    computeAnnualTax 30000 true false ≤ computeAnnualTax 40000 true false :=
  ⟨by norm_num, computeAnnualTax_monotone true false 30000 40000 (by norm_num)⟩

/-- Restatement of the custom-synthesis algorithm of `chosenFormula` in the
claim's terms, valid whenever the necessity percentage exceeds 70. -/
lemma chosenFormula_custom_claim (pct : ℚ) (h : 70 < pct) :
    (chosenFormula pct).needs = min 100 (⌈pct⌉ : ℚ) ∧
    (chosenFormula pct).savings =
      (if 100 - min 100 (⌈pct⌉ : ℚ) -
          (if 70 < min 100 (⌈pct⌉ : ℚ) then (10 : ℚ) else 20) < 0 then
        max 0 (100 - min 100 (⌈pct⌉ : ℚ))
      else if 70 < min 100 (⌈pct⌉ : ℚ) then (10 : ℚ) else 20) ∧
    (chosenFormula pct).wants =
      100 - (chosenFormula pct).needs - (chosenFormula pct).savings := by
  obtain ⟨hn, hs, hw⟩ := chosenFormula_custom_fields pct h
  have hceil : (70 : ℚ) < (⌈pct⌉ : ℚ) := lt_of_lt_of_le h (Int.le_ceil pct)
  have hn70 : (70 : ℚ) < min 100 (⌈pct⌉ : ℚ) := lt_min (by norm_num) hceil
  have hn100 : min 100 (⌈pct⌉ : ℚ) ≤ 100 := min_le_left _ _
  refine ⟨hn, ?_, hw⟩
  simp only [if_pos hn70]
  by_cases hsq : 100 - min 100 (⌈pct⌉ : ℚ) - 10 < 0
  · rw [if_pos hsq] at hs
    rw [if_pos hsq, hs, max_eq_right (by linarith)]
  · rw [if_neg hsq] at hs
    rw [if_neg hsq, hs]

/-- C5: when no preset fits (every preset's needs percentage is below the
necessity percentage), the synthesized formula follows needs =
min(100, ceil(pct)), savings = 10 if needs > 70 else 20, wants =
100 - needs - savings with the negative-wants squeeze to savings =
max(0, 100 - needs); in particular pct = 85 gives 85/5/10 and pct = 95
gives 95/0/5. -/
theorem custom_formula_synthesis :
    (∀ pct : ℚ, (∀ f ∈ DEFAULT_FORMULAS, f.needs < pct) →
      (chosenFormula pct).needs = min 100 (⌈pct⌉ : ℚ) ∧
      (chosenFormula pct).savings =
        (if 100 - min 100 (⌈pct⌉ : ℚ) -
            (if 70 < min 100 (⌈pct⌉ : ℚ) then (10 : ℚ) else 20) < 0 then
          max 0 (100 - min 100 (⌈pct⌉ : ℚ))
        else if 70 < min 100 (⌈pct⌉ : ℚ) then (10 : ℚ) else 20) ∧
      (chosenFormula pct).wants =
        100 - (chosenFormula pct).needs - (chosenFormula pct).savings) ∧
    ((chosenFormula 85).needs = 85 ∧ (chosenFormula 85).wants = 5 ∧
      (chosenFormula 85).savings = 10) ∧
    ((chosenFormula 95).needs = 95 ∧ (chosenFormula 95).wants = 0 ∧
      (chosenFormula 95).savings = 5) := by
  have h70mem : (⟨"70 / 20 / 10", 70, 20, 10⟩ : Formula) ∈ DEFAULT_FORMULAS := by
    simp [DEFAULT_FORMULAS]
  refine ⟨fun pct hall =>
    chosenFormula_custom_claim pct (by simpa using hall _ h70mem), ?_, ?_⟩
  · obtain ⟨hn, hs, hw⟩ := chosenFormula_custom_fields 85 (by norm_num)
    have hc : ((⌈(85 : ℚ)⌉ : ℤ) : ℚ) = 85 := by norm_num
    rw [hc] at hn hs
    norm_num at hn hs
    exact ⟨hn, by rw [hw, hn, hs]; norm_num, hs⟩
  · obtain ⟨hn, hs, hw⟩ := chosenFormula_custom_fields 95 (by norm_num)
    have hc : ((⌈(95 : ℚ)⌉ : ℤ) : ℚ) = 95 := by norm_num
    rw [hc] at hn hs
    norm_num at hn hs
    exact ⟨hn, by rw [hw, hn, hs]; norm_num, hs⟩

/-- C5 witness: the synthesis description instantiated at necessity
percentage 85, where every preset's needs percentage is below 85. -/
theorem custom_formula_synthesis_witness :
    (chosenFormula 85).needs = min 100 (⌈(85 : ℚ)⌉ : ℚ) ∧
    (chosenFormula 85).savings =
      (if 100 - min 100 (⌈(85 : ℚ)⌉ : ℚ) -
          (if 70 < min 100 (⌈(85 : ℚ)⌉ : ℚ) then (10 : ℚ) else 20) < 0 then
        max 0 (100 - min 100 (⌈(85 : ℚ)⌉ : ℚ))
      else if 70 < min 100 (⌈(85 : ℚ)⌉ : ℚ) then (10 : ℚ) else 20) ∧
    (chosenFormula 85).wants =
      100 - (chosenFormula 85).needs - (chosenFormula 85).savings :=
  custom_formula_synthesis.1 85 (by norm_num [DEFAULT_FORMULAS])

/-- C6: bracket-boundary values of `computeAnnualTax` with default options:
20000 gives max(0, 150 - 400) = 0, 35000 gives max(0, 600 - 400) = 200, and
100000 gives 9400 (no rebate above 35000). -/
theorem tax_bracket_boundary_values :
    computeAnnualTax 20000 true false = max 0 (150 - 400) ∧
    computeAnnualTax 20000 true false = 0 ∧
    computeAnnualTax 35000 true false = max 0 (150 + 15000 * (3/100) - 400) ∧
    computeAnnualTax 35000 true false = 200 ∧
    computeAnnualTax 100000 true false = 9400 := by
  refine ⟨?_, ?_, ?_, ?_, ?_⟩ <;>
    norm_num [computeAnnualTax, BRACKETS, bracketMatches, max_def, min_def]

/-- C7: the fixed `BRACKETS` table matches the spec's ten brackets (lower
bounds, upper bounds, rates and cumulative base taxes), is strictly
ordered and contiguous (each upper bound is the next lower bound, the
first lower bound is 0, the last bracket is unbounded), and every
cumulative base tax equals the previous bracket's formula evaluated at its
upper bound. -/
theorem BRACKETS_table_invariant :
    BRACKETS.map Bracket.lowerBound =
      [0, 5000, 20000, 35000, 50000, 70000, 100000, 400000, 600000,
       2000000] ∧
    BRACKETS.map Bracket.upTo =
      [some 5000, some 20000, some 35000, some 50000, some 70000,
       some 100000, some 400000, some 600000, some 2000000, none] ∧
    BRACKETS.map Bracket.rate =
      [0, 1/100, 3/100, 6/100, 11/100, 19/100, 25/100, 26/100, 28/100,
       30/100] ∧
    BRACKETS.map Bracket.baseTax =
      [0, 0, 150, 600, 1500, 3700, 9400, 84400, 136400, 528400] ∧
    List.Chain'
      (fun b1 b2 =>
        b1.upTo = some b2.lowerBound ∧ b1.lowerBound < b2.lowerBound ∧
        b2.baseTax = b1.baseTax + (b2.lowerBound - b1.lowerBound) * b1.rate)
      BRACKETS := by
  refine ⟨?_, ?_, ?_, ?_, ?_⟩ <;>
    norm_num [BRACKETS, List.chain'_cons]

/-- Transcription of the spec's closed-form contract for
`buildAnnualChargeableIncome` (claim C8): annual gross minus the sum of the
base reliefs and the capped EPF and SOCSO+EIS additions, floored at 0. -/
def buildAnnualChargeableIncomeSpec (monthlyGross annualReliefs : ℚ)
    (epfMonthly socsoMonthly eisMonthly : Option ℚ) : ℚ :=
  let annualGross := max 0 monthlyGross * 12
  let epfRelief :=
    match epfMonthly with
    | some e => min (max 0 e * 12) 7000
    | none => 0
  let socsoEisRelief :=
    if socsoMonthly.isSome ∨ eisMonthly.isSome then
      min ((max 0 (socsoMonthly.getD 0) + max 0 (eisMonthly.getD 0)) * 12) 350
    else 0
  max 0 (annualGross - (max 0 annualReliefs + epfRelief + socsoEisRelief))

/-- C8: `buildAnnualChargeableIncome` equals the spec's closed form for all
inputs, and at (5000, 0, epfMonthly = 550) it returns 60000 - 6600 =
53400. -/
theorem buildAnnualChargeableIncome_contract :
    (∀ (mg ar : ℚ) (e s i : Option ℚ),
      buildAnnualChargeableIncome mg ar e s i =
        buildAnnualChargeableIncomeSpec mg ar e s i) ∧
    buildAnnualChargeableIncome 5000 0 (some 550) none none = 53400 := by
  constructor
  · intro mg ar e s i
    unfold buildAnnualChargeableIncome buildAnnualChargeableIncomeSpec
    rcases e with _ | ev <;> by_cases hsi : s.isSome ∨ i.isSome <;>
      simp only [hsi, if_pos, if_neg, ite_true, ite_false, if_true, if_false,
        eq_self_iff_true, not_false_iff] <;>
      ring_nf
  · norm_num [buildAnnualChargeableIncome, max_def, min_def]

/-- C9: the three allocation amounts of `computeAllocation` sum exactly to
the net salary, because the chosen formula's percentages sum to 100. -/
theorem allocation_amounts_sum_to_net (form : SalaryForm) :
    (computeAllocation form).needsAmount + (computeAllocation form).wantsAmount +
      (computeAllocation form).savingsAmount = (computeAllocation form).net := by
  have hsum := (chosenFormula_valid (necessityPct form)).2.2.2.2.2.2
  simp only [computeAllocation]
  linear_combination (net form / 100) * hsum

/-- C10: for every chargeable income whose clamped value exceeds 5000, the
bracket search of `computeAnnualTax` finds a bracket, so the
`if (!bracket) return 0` fallback is unreachable. -/
theorem bracket_search_total (x : ℚ) (h : 5000 < max 0 x) :
    ∃ b, BRACKETS.find? (bracketMatches (max 0 x)) = some b := by
  set ci := max 0 x with hci
  rcases le_or_lt ci 20000 with h2 | h2
  · exact ⟨_, find?_eq_B ci h h2⟩
  rcases le_or_lt ci 35000 with h3 | h3
  · exact ⟨_, find?_eq_C ci h2 h3⟩
  rcases le_or_lt ci 50000 with h4 | h4
  · exact ⟨_, find?_eq_D ci h3 h4⟩
  rcases le_or_lt ci 70000 with h5 | h5
  · exact ⟨_, find?_eq_E ci h4 h5⟩
  rcases le_or_lt ci 100000 with h6 | h6
  · exact ⟨_, find?_eq_F ci h5 h6⟩
  rcases le_or_lt ci 400000 with h7 | h7
  · exact ⟨_, find?_eq_G ci h6 h7⟩
  rcases le_or_lt ci 600000 with h8 | h8
  · exact ⟨_, find?_eq_H ci h7 h8⟩
  rcases le_or_lt ci 2000000 with h9 | h9
  · exact ⟨_, find?_eq_I ci h8 h9⟩
  · exact ⟨_, find?_eq_J ci h9⟩

/-- C10 witness: the bracket search succeeds at chargeable income 6000. -/
theorem bracket_search_total_witness :
    (5000 : ℚ) < max 0 6000 ∧
    ∃ b, BRACKETS.find? (bracketMatches (max 0 6000)) = some b :=
  ⟨by norm_num [max_def], bracket_search_total 6000 (by norm_num [max_def])⟩

end SalaryCalt
